import Mathlib

/-!
Verification of the PersonalizedMCP F1 data server against its
natural-language specification.

The repository exposes an in-memory snapshot of three tables (drivers,
teams, circuits) through a fixed set of tool operations.  This file gives a
shallow embedding of the data model and of the operations the claims are
about, one namespace per source file:

  * `ClaudeServer`          — src/claude_server.py
  * `Server`                — src/server.py
  * `ClaudeServerGeneric`   — src/claude_server_generic.py
  * `ClaudeServerResources` — src/claude_server_resources.py

Python dictionaries (insertion ordered, unique keys) are modelled as
association lists `List (String × α)`; `key in d` / `d[key]` become
`lookup`.  Machine integers are Python bignums, so statistics are `Int`.
JSON serialisation (`json.dumps` / `json.loads`) between a server and its
transport is a faithful round trip on these finite structures and is
elided; the decimal circuit length, which no code computes with, is kept
as its literal text.
-/

set_option autoImplicit false

namespace F1Spec

/-- Python `dict` access: `d[key]` when `key in d`, `none` otherwise.
Association lists keep the dict's insertion order. -/
def lookup {α : Type} : List (String × α) → String → Option α
  | [], _ => none
  | (k, v) :: rest, key => if key = k then some v else lookup rest key

/-- `list(d.keys())`: the keys of a table in insertion order. -/
def keys {α : Type} (table : List (String × α)) : List String :=
  table.map Prod.fst

/-- A driver record (src/server.py lines 11-40 and the `drivers` objects of
the JSON document). -/
structure Driver where
  name : String
  team : String
  nationality : String
  world_championships : Int
  race_wins : Int
  pole_positions : Int
  fastest_laps : Int
  current_points : Int
deriving DecidableEq

/-- A team record. -/
structure Team where
  name : String
  base : String
  team_principal : String
  constructors_championships : Int
  engine_supplier : String
  founded : Int
deriving DecidableEq

/-- A circuit record.  `length_km` is a decimal the code only ever prints,
kept as its literal text. -/
structure Circuit where
  name : String
  location : String
  length_km : String
  laps : Int
  lap_record : String
  lap_record_holder : String
  first_gp : Int
deriving DecidableEq

/-- The in-memory snapshot `F1_DATA`: three tables. -/
structure Snapshot where
  drivers : List (String × Driver)
  teams : List (String × Team)
  circuits : List (String × Circuit)
deriving DecidableEq

/-- The empty snapshot the loaders fall back to. -/
def emptySnapshot : Snapshot :=
  { drivers := [], teams := [], circuits := [] }

/-- Boolean substring test (used to state whether a message names an id). -/
def strContains (needle hay : String) : Bool :=
  decide (needle.data <:+: hay.data)

namespace ClaudeServer

/-- Outcome of a `get_*_info` tool of src/claude_server.py: either the raw
record, or the error dict `\x7b"error": …, "available": …\x7d`. -/
inductive GetResult (α : Type) where
  | ok (record : α)
  | notFound (error : String) (available : List String)
deriving DecidableEq

/-- src/claude_server.py lines 34-46, `get_driver_info`. -/
def get_driver_info (snap : Snapshot) (driver_id : String) : GetResult Driver :=
  match lookup snap.drivers driver_id with
  | none => .notFound ("Driver '" ++ driver_id ++ "' not found.") (keys snap.drivers)
  | some d => .ok d

/-- src/claude_server.py lines 48-61, `get_team_info`. -/
def get_team_info (snap : Snapshot) (team_id : String) : GetResult Team :=
  match lookup snap.teams team_id with
  | none => .notFound ("Team '" ++ team_id ++ "' not found.") (keys snap.teams)
  | some t => .ok t

/-- src/claude_server.py lines 63-76, `get_circuit_info`. -/
def get_circuit_info (snap : Snapshot) (circuit_id : String) : GetResult Circuit :=
  match lookup snap.circuits circuit_id with
  | none => .notFound ("Circuit '" ++ circuit_id ++ "' not found.") (keys snap.circuits)
  | some c => .ok c

/-- src/claude_server.py lines 97-103: the per-statistic winner helper. -/
def compare_stat (stat1 stat2 : Int) : String :=
  if stat1 > stat2 then "driver1"
  else if stat2 > stat1 then "driver2"
  else "equal"

/-- The success dict of src/claude_server.py `compare_drivers`
(lines 105-114): the two names and the `comparisons` dict, modelled as an
association list in the source's key order. -/
structure ComparisonResult where
  driver1 : String
  driver2 : String
  comparisons : List (String × String)
deriving DecidableEq

/-- src/claude_server.py lines 79-114, `compare_drivers`. -/
def compare_drivers (snap : Snapshot) (driver1_id driver2_id : String) :
    Except String ComparisonResult :=
  match lookup snap.drivers driver1_id, lookup snap.drivers driver2_id with
  | some driver1, some driver2 =>
      .ok { driver1 := driver1.name
            driver2 := driver2.name
            comparisons :=
              [("world_championships",
                  compare_stat driver1.world_championships driver2.world_championships),
               ("race_wins", compare_stat driver1.race_wins driver2.race_wins),
               ("pole_positions", compare_stat driver1.pole_positions driver2.pole_positions),
               ("fastest_laps", compare_stat driver1.fastest_laps driver2.fastest_laps)] }
  | _, _ => .error "One or both driver IDs not found."

/-- How the data file read can go: the file is there with some text, or
`open` raises `FileNotFoundError`. -/
inductive ReadResult where
  | fileNotFound
  | content (text : String)

/-- src/claude_server.py lines 17-28, `load_f1_data`.  `json.load` is the
external JSON parser, abstracted as `parse` (returning `none` exactly when
it raises `JSONDecodeError`).  The second component is the list of
messages logged to stderr; both exception paths return the empty
three-table snapshot instead of failing, so the function is total. -/
def load_f1_data (parse : String → Option Snapshot) (file : ReadResult) :
    Snapshot × List String :=
  match file with
  | .fileNotFound => (emptySnapshot, ["f1_data.json not found"])
  | .content text =>
    match parse text with
    | none => (emptySnapshot, ["Error parsing JSON"])
    | some snap => (snap, [])

/-- src/claude_server.py lines 131-145, `reload_data`, in explicit
state-passing form: `current` is the active `F1_DATA`, `loaded` the value
`load_f1_data()` would produce at reload time; the result is the new
active snapshot and the returned status text. -/
def reload_data (confirm : Bool) (current loaded : Snapshot) : Snapshot × String :=
  if ¬ confirm then (current, "Reload aborted: please set 'confirm=true' to reload.")
  else (loaded, "F1 data reloaded successfully.")

end ClaudeServer

namespace Server

/-- The hardcoded `F1_DATA` of src/server.py lines 9-88. -/
def F1_DATA : Snapshot :=
  { drivers :=
      [("max_verstappen",
        { name := "Max Verstappen", team := "Red Bull Racing", nationality := "Dutch"
          world_championships := 4, race_wins := 63, pole_positions := 40
          fastest_laps := 33, current_points := 0 }),
       ("lewis_hamilton",
        { name := "Lewis Hamilton", team := "Ferrari", nationality := "British"
          world_championships := 7, race_wins := 105, pole_positions := 104
          fastest_laps := 67, current_points := 0 }),
       ("charles_leclerc",
        { name := "Charles Leclerc", team := "Ferrari", nationality := "Monegasque"
          world_championships := 0, race_wins := 7, pole_positions := 25
          fastest_laps := 9, current_points := 0 })]
    teams :=
      [("red_bull",
        { name := "Red Bull Racing", base := "Milton Keynes, UK"
          team_principal := "Christian Horner", constructors_championships := 6
          engine_supplier := "Honda RBPT", founded := 2005 }),
       ("ferrari",
        { name := "Scuderia Ferrari", base := "Maranello, Italy"
          team_principal := "Fred Vasseur", constructors_championships := 16
          engine_supplier := "Ferrari", founded := 1950 }),
       ("mercedes",
        { name := "Mercedes-AMG Petronas", base := "Brackley, UK"
          team_principal := "Toto Wolff", constructors_championships := 8
          engine_supplier := "Mercedes", founded := 2010 })]
    circuits :=
      [("monaco",
        { name := "Circuit de Monaco", location := "Monte Carlo, Monaco"
          length_km := "3.337", laps := 78, lap_record := "1:12.909"
          lap_record_holder := "Lewis Hamilton", first_gp := 1950 }),
       ("silverstone",
        { name := "Silverstone Circuit", location := "Silverstone, UK"
          length_km := "5.891", laps := 52, lap_record := "1:27.097"
          lap_record_holder := "Max Verstappen", first_gp := 1950 })] }

/-- src/server.py lines 94-105, `get_driver_info`: `\x7b"success": True,
"data": …\x7d` becomes `.ok`, the failure dict becomes `.error` carrying
its message. -/
def get_driver_info (snap : Snapshot) (driver_id : String) : Except String Driver :=
  match lookup snap.drivers driver_id with
  | some d => .ok d
  | none =>
      .error ("Driver '" ++ driver_id ++ "' not found. Available drivers: " ++
        String.intercalate ", " (keys snap.drivers))

/-- src/server.py lines 107-118, `get_team_info`. -/
def get_team_info (snap : Snapshot) (team_id : String) : Except String Team :=
  match lookup snap.teams team_id with
  | some t => .ok t
  | none =>
      .error ("Team '" ++ team_id ++ "' not found. Available teams: " ++
        String.intercalate ", " (keys snap.teams))

/-- src/server.py lines 120-131, `get_circuit_info`. -/
def get_circuit_info (snap : Snapshot) (circuit_id : String) : Except String Circuit :=
  match lookup snap.circuits circuit_id with
  | some c => .ok c
  | none =>
      .error ("Circuit '" ++ circuit_id ++ "' not found. Available circuits: " ++
        String.intercalate ", " (keys snap.circuits))

/-- The per-driver summary inside src/server.py's comparison dict
(lines 144-155). -/
structure DriverSummary where
  name : String
  world_championships : Int
  race_wins : Int
  pole_positions : Int
deriving DecidableEq

/-- The `comparison` dict of src/server.py lines 143-167; the `analysis`
dict is an association list in the source's key order. -/
structure Comparison where
  driver1 : DriverSummary
  driver2 : DriverSummary
  analysis : List (String × String)
deriving DecidableEq

/-- The conditional expressions of src/server.py lines 157-165: the name of
the driver with the strictly greater value, else `"Equal"`. -/
def moreOf (v1 v2 : Int) (n1 n2 : String) : String :=
  if v1 > v2 then n1 else if v2 > v1 then n2 else "Equal"

/-- src/server.py lines 133-169, `compare_drivers`. -/
def compare_drivers (snap : Snapshot) (driver1_id driver2_id : String) :
    Except String Comparison :=
  match lookup snap.drivers driver1_id with
  | none => .error ("Driver '" ++ driver1_id ++ "' not found")
  | some driver1 =>
    match lookup snap.drivers driver2_id with
    | none => .error ("Driver '" ++ driver2_id ++ "' not found")
    | some driver2 =>
        .ok { driver1 :=
                { name := driver1.name
                  world_championships := driver1.world_championships
                  race_wins := driver1.race_wins
                  pole_positions := driver1.pole_positions }
              driver2 :=
                { name := driver2.name
                  world_championships := driver2.world_championships
                  race_wins := driver2.race_wins
                  pole_positions := driver2.pole_positions }
              analysis :=
                [("more_championships",
                    moreOf driver1.world_championships driver2.world_championships
                      driver1.name driver2.name),
                 ("more_wins",
                    moreOf driver1.race_wins driver2.race_wins
                      driver1.name driver2.name),
                 ("more_poles",
                    moreOf driver1.pole_positions driver2.pole_positions
                      driver1.name driver2.name)] }

/-- src/server.py lines 171-180, `list_all_data`: always succeeds with the
three key lists. -/
def list_all_data (snap : Snapshot) : List String × List String × List String :=
  (keys snap.drivers, keys snap.teams, keys snap.circuits)

/-- The request handed to `handle_call_tool`: a tool name and an arguments
dict (src/server.py line 260).  All declared tool parameters are strings. -/
structure CallToolRequest where
  name : String
  arguments : List (String × String)
deriving DecidableEq

/-- The fault channel of the tool bodies: `request.arguments[key]` raises
`KeyError(key)` when the key is missing; nothing else in the handlers can
raise on a typed snapshot. -/
inductive PyError where
  | keyError (key : String)
deriving DecidableEq

/-- Python `str(KeyError(key))`, the text `handle_call_tool` puts into its
error dict. -/
def str_of_error : PyError → String
  | .keyError key => "'" ++ key ++ "'"

/-- `request.arguments[key]`: the value, or a raised `KeyError`. -/
def getArg (arguments : List (String × String)) (key : String) : Except PyError String :=
  match lookup arguments key with
  | some v => .ok v
  | none => .error (.keyError key)

/-- Decidable equality for `Except`, so tool results can be compared by
`decide` in the concrete checks. -/
instance {ε α : Type} [DecidableEq ε] [DecidableEq α] : DecidableEq (Except ε α) :=
  fun x y =>
    match x, y with
    | .ok a, .ok b =>
        if h : a = b then isTrue (h ▸ rfl) else isFalse fun hh => h (Except.ok.inj hh)
    | .error a, .error b =>
        if h : a = b then isTrue (h ▸ rfl) else isFalse fun hh => h (Except.error.inj hh)
    | .ok _, .error _ => isFalse fun hh => Except.noConfusion hh
    | .error _, .ok _ => isFalse fun hh => Except.noConfusion hh

/-- The result dict each branch of src/server.py lines 263-277 produces
(before `json.dumps`). -/
inductive ToolOutput where
  | driver (r : Except String Driver)
  | team (r : Except String Team)
  | circuit (r : Except String Circuit)
  | comparison (r : Except String Comparison)
  | listing (ids : List String × List String × List String)
  | unknown (error : String)
deriving DecidableEq

/-- The body of the `try:` block of src/server.py lines 262-277: route the
request to the tool helpers, propagating any raised fault. -/
def dispatch (snap : Snapshot) (req : CallToolRequest) : Except PyError ToolOutput :=
  if req.name = "get_driver_info" then do
    let driver_id ← getArg req.arguments "driver_id"
    return .driver (get_driver_info snap driver_id)
  else if req.name = "get_team_info" then do
    let team_id ← getArg req.arguments "team_id"
    return .team (get_team_info snap team_id)
  else if req.name = "get_circuit_info" then do
    let circuit_id ← getArg req.arguments "circuit_id"
    return .circuit (get_circuit_info snap circuit_id)
  else if req.name = "compare_drivers" then do
    let driver1_id ← getArg req.arguments "driver1_id"
    let driver2_id ← getArg req.arguments "driver2_id"
    return .comparison (compare_drivers snap driver1_id driver2_id)
  else if req.name = "list_all_data" then
    return .listing (list_all_data snap)
  else
    return .unknown ("Unknown tool: " ++ req.name)

/-- The payload of the single `TextContent` the handler returns
(`json.dumps` of either the tool result or the caught-error dict
`\x7b"success": False, "error": str(e)\x7d`; the serialisation itself is
elided). -/
inductive Rendered where
  | output (result : ToolOutput)
  | caughtError (message : String)
deriving DecidableEq

/-- src/server.py lines 259-283, `handle_call_tool`: the whole dispatch
runs inside `try: … except Exception as e:`, so every fault is converted
at this boundary into the structured error shape and the handler is a
total function returning exactly one content item. -/
def handle_call_tool (snap : Snapshot) (req : CallToolRequest) : List Rendered :=
  match dispatch snap req with
  | .ok result => [.output result]
  | .error e => [.caughtError (str_of_error e)]

end Server

namespace ClaudeServerGeneric

/-- src/claude_server_generic.py lines 111-117: the winner rendered as
text, `"name (hi vs lo)"`, or `"Equal (v)"` on a tie. -/
def compare_stat (stat1 stat2 : Int) (name1 name2 : String) : String :=
  if stat1 > stat2 then name1 ++ " (" ++ toString stat1 ++ " vs " ++ toString stat2 ++ ")"
  else if stat2 > stat1 then name2 ++ " (" ++ toString stat2 ++ " vs " ++ toString stat1 ++ ")"
  else "Equal (" ++ toString stat1 ++ ")"

/-- src/claude_server_generic.py lines 11-22, `load_f1_data`: same code as
the claude_server.py loader (the condition is printed instead of logged);
`parse` abstracts the external `json.load`. -/
def load_f1_data (parse : String → Option Snapshot) (file : ClaudeServer.ReadResult) :
    Snapshot × List String :=
  match file with
  | .fileNotFound => (emptySnapshot, ["Error: f1_data.json not found"])
  | .content text =>
    match parse text with
    | none => (emptySnapshot, ["Error parsing JSON"])
    | some snap => (snap, [])

/-- src/claude_server_generic.py lines 163-173, `reload_data`: no
confirmation flag — the snapshot is unconditionally replaced by the value
`load_f1_data()` produces and a fixed status text is returned. -/
def reload_data (loaded : Snapshot) : Snapshot × String :=
  (loaded, "F1 data reloaded successfully from f1_data.json")

end ClaudeServerGeneric

namespace ClaudeServerResources

/-- The JSON document `get_driver_resource` renders
(src/claude_server_resources.py lines 98-112): either the error object
with the `available_drivers` key, or the `driver_details` object. -/
inductive DriverResource where
  | errorRes (error : String) (available_drivers : List String)
  | details (resource_type : String) (driver_id : String) (data : Driver)
deriving DecidableEq

/-- src/claude_server_resources.py lines 98-112, `get_driver_resource`
(the `json.dumps`/`json.loads` round trip between resource and tool is the
identity on these objects and is elided). -/
def get_driver_resource (snap : Snapshot) (driver_id : String) : DriverResource :=
  match lookup snap.drivers driver_id with
  | none => .errorRes ("Driver '" ++ driver_id ++ "' not found") (keys snap.drivers)
  | some d => .details "driver_details" driver_id d

/-- What the resource-backed tool returns: the error object passed through,
or the bare record extracted from the `data` field. -/
inductive ToolReturn where
  | errorReturn (error : String) (available_drivers : List String)
  | record (data : Driver)
deriving DecidableEq

/-- src/claude_server_resources.py lines 148-165, `get_driver_info`: reads
the resource back and returns it whole when an `"error"` key is present
(only the `errorRes` shape has one), else just its `data` field. -/
def get_driver_info (snap : Snapshot) (driver_id : String) : ToolReturn :=
  match get_driver_resource snap driver_id with
  | .errorRes e avail => .errorReturn e avail
  | .details _ _ d => .record d

end ClaudeServerResources

/-!
Spec-side vocabulary: these definitions formalise the words of the claims
(winner, tie, "names the id") and are used only to state the theorems;
they embed no source code.
-/

/-- What a comparison entry means once its `"driver1"`/`"driver2"` label is
resolved against the result's name fields: a named winner, or a tie. -/
inductive Verdict where
  | winner (name : String)
  | tie
deriving DecidableEq

/-- Resolve a label of claude_server.py's `comparisons` dict against the
two name fields. -/
def labelVerdict (label n1 n2 : String) : Verdict :=
  if label = "driver1" then .winner n1
  else if label = "driver2" then .winner n2
  else .tie

/-- The verdict a claude_server.py comparison result reports for a
statistic key, `none` when the key is absent. -/
def statVerdict (res : ClaudeServer.ComparisonResult) (stat : String) : Option Verdict :=
  (lookup res.comparisons stat).map fun label => labelVerdict label res.driver1 res.driver2

/-- The claimed behaviour of one claude_server.py comparison entry for
values `v1`, `v2`: the tie label exactly on equality, and the strictly
greater side's label otherwise. -/
abbrev reportsWinner (entry : Option String) (v1 v2 : Int) : Prop :=
  (entry = some "equal" ↔ v1 = v2) ∧
  (v1 > v2 → entry = some "driver1") ∧
  (v2 > v1 → entry = some "driver2")

/-- The claimed behaviour of one server.py analysis entry: the `"Equal"`
tie value exactly on equality, and the strictly greater side's name
otherwise. -/
abbrev namedReportsWinner (entry : Option String) (n1 n2 : String) (v1 v2 : Int) : Prop :=
  (entry = some "Equal" ↔ v1 = v2) ∧
  (v1 > v2 → entry = some n1) ∧
  (v2 > v1 → entry = some n2)

/-- A JSON parse outcome that fails on every text: stands for
`json.JSONDecodeError` in the witnesses. -/
def noParse : String → Option Snapshot := fun _ => none

/-!  Shared helper lemmas. -/

/-- A successful dict lookup yields an entry of the dict. -/
theorem lookup_mem {α : Type} :
    ∀ (l : List (String × α)) (k : String) (v : α), lookup l k = some v → (k, v) ∈ l := by
  intro l k v
  induction l with
  | nil => intro h; simp [lookup] at h
  | cons p rest ih =>
    rcases p with ⟨a, b⟩
    intro h
    simp only [lookup] at h
    by_cases hk : k = a
    · subst hk
      rw [if_pos rfl] at h
      injection h with h
      subst h
      exact List.mem_cons_self _ _
    · rw [if_neg hk] at h
      exact List.mem_cons_of_mem _ (ih h)

/-- `compare_stat` on a strictly greater first value. -/
theorem compare_stat_of_gt {a b : Int} (h : a > b) : ClaudeServer.compare_stat a b = "driver1" := by
  unfold ClaudeServer.compare_stat
  rw [if_pos h]

/-- `compare_stat` on a strictly greater second value. -/
theorem compare_stat_of_lt {a b : Int} (h : b > a) : ClaudeServer.compare_stat a b = "driver2" := by
  unfold ClaudeServer.compare_stat
  rw [if_neg (by omega), if_pos h]

/-- `compare_stat` on equal values. -/
theorem compare_stat_of_eq {a b : Int} (h : a = b) : ClaudeServer.compare_stat a b = "equal" := by
  unfold ClaudeServer.compare_stat
  rw [if_neg (by omega), if_neg (by omega)]

/-- A `comparisons` entry produced by `compare_stat` behaves as the claim
says. -/
theorem reportsWinner_compare_stat (v1 v2 : Int) :
    reportsWinner (some (ClaudeServer.compare_stat v1 v2)) v1 v2 := by
  rcases lt_trichotomy v1 v2 with h | h | h
  · rw [compare_stat_of_lt h]
    refine ⟨⟨fun hh => absurd (Option.some.inj hh) (by decide), fun hh => by omega⟩,
      fun hh => by omega, fun _ => rfl⟩
  · rw [compare_stat_of_eq h]
    exact ⟨⟨fun _ => h, fun _ => rfl⟩, fun hh => by omega, fun hh => by omega⟩
  · rw [compare_stat_of_gt h]
    refine ⟨⟨fun hh => absurd (Option.some.inj hh) (by decide), fun hh => by omega⟩,
      fun _ => rfl, fun hh => by omega⟩

/-- `moreOf` on a strictly greater first value. -/
theorem moreOf_of_gt {v1 v2 : Int} (n1 n2 : String) (h : v1 > v2) :
    Server.moreOf v1 v2 n1 n2 = n1 := by
  unfold Server.moreOf
  rw [if_pos h]

/-- `moreOf` on a strictly greater second value. -/
theorem moreOf_of_lt {v1 v2 : Int} (n1 n2 : String) (h : v2 > v1) :
    Server.moreOf v1 v2 n1 n2 = n2 := by
  unfold Server.moreOf
  rw [if_neg (by omega), if_pos h]

/-- `moreOf` on equal values. -/
theorem moreOf_of_eq {v1 v2 : Int} (n1 n2 : String) (h : v1 = v2) :
    Server.moreOf v1 v2 n1 n2 = "Equal" := by
  unfold Server.moreOf
  rw [if_neg (by omega), if_neg (by omega)]

/-- An `analysis` entry produced by `moreOf` behaves as the claim says, as
long as neither driver is literally named `"Equal"`. -/
theorem namedReportsWinner_moreOf (v1 v2 : Int) (n1 n2 : String)
    (hn1 : n1 ≠ "Equal") (hn2 : n2 ≠ "Equal") :
    namedReportsWinner (some (Server.moreOf v1 v2 n1 n2)) n1 n2 v1 v2 := by
  rcases lt_trichotomy v1 v2 with h | h | h
  · rw [moreOf_of_lt n1 n2 h]
    exact ⟨⟨fun hh => absurd (Option.some.inj hh) hn2, fun hh => by omega⟩,
      fun hh => by omega, fun _ => rfl⟩
  · rw [moreOf_of_eq n1 n2 h]
    exact ⟨⟨fun _ => h, fun _ => rfl⟩, fun hh => by omega, fun hh => by omega⟩
  · rw [moreOf_of_gt n1 n2 h]
    exact ⟨⟨fun hh => absurd (Option.some.inj hh) hn1, fun hh => by omega⟩,
      fun _ => rfl, fun hh => by omega⟩

/-- Resolving claude_server.py's labels after swapping the two inputs
yields the same verdict. -/
theorem labelVerdict_compare_stat_swap (a b : Int) (n1 n2 : String) :
    labelVerdict (ClaudeServer.compare_stat a b) n1 n2 =
      labelVerdict (ClaudeServer.compare_stat b a) n2 n1 := by
  rcases lt_trichotomy a b with h | h | h
  · rw [compare_stat_of_lt h, compare_stat_of_gt h]; rfl
  · rw [compare_stat_of_eq h, compare_stat_of_eq h.symm]; rfl
  · rw [compare_stat_of_gt h, compare_stat_of_lt h]; rfl

/-- Every value `compare_stat` can produce. -/
theorem compare_stat_cases (a b : Int) :
    ClaudeServer.compare_stat a b = "driver1" ∨ ClaudeServer.compare_stat a b = "driver2" ∨
      ClaudeServer.compare_stat a b = "equal" := by
  rcases lt_trichotomy a b with h | h | h
  · exact Or.inr (Or.inl (compare_stat_of_lt h))
  · exact Or.inr (Or.inr (compare_stat_of_eq h))
  · exact Or.inl (compare_stat_of_gt h)

/-- Every value `moreOf` can produce. -/
theorem moreOf_cases (v1 v2 : Int) (n1 n2 : String) :
    Server.moreOf v1 v2 n1 n2 = n1 ∨ Server.moreOf v1 v2 n1 n2 = n2 ∨
      Server.moreOf v1 v2 n1 n2 = "Equal" := by
  rcases lt_trichotomy v1 v2 with h | h | h
  · exact Or.inr (Or.inl (moreOf_of_lt n1 n2 h))
  · exact Or.inr (Or.inr (moreOf_of_eq n1 n2 h))
  · exact Or.inl (moreOf_of_gt n1 n2 h)

/-- The generic variant's `compare_stat` on a strictly greater first
value. -/
theorem generic_compare_stat_of_gt {a b : Int} (n1 n2 : String) (h : a > b) :
    ClaudeServerGeneric.compare_stat a b n1 n2 =
      n1 ++ " (" ++ toString a ++ " vs " ++ toString b ++ ")" := by
  unfold ClaudeServerGeneric.compare_stat
  rw [if_pos h]

/-- The generic variant's `compare_stat` on a strictly greater second
value. -/
theorem generic_compare_stat_of_lt {a b : Int} (n1 n2 : String) (h : b > a) :
    ClaudeServerGeneric.compare_stat a b n1 n2 =
      n2 ++ " (" ++ toString b ++ " vs " ++ toString a ++ ")" := by
  unfold ClaudeServerGeneric.compare_stat
  rw [if_neg (by omega), if_pos h]

/-- The generic variant's `compare_stat` on equal values. -/
theorem generic_compare_stat_of_eq {a b : Int} (n1 n2 : String) (h : a = b) :
    ClaudeServerGeneric.compare_stat a b n1 n2 = "Equal (" ++ toString a ++ ")" := by
  unfold ClaudeServerGeneric.compare_stat
  rw [if_neg (by omega), if_neg (by omega)]

/-- C1: for every pair of driver ids present in the drivers table and
every tracked statistic, compare_drivers reports the tie value
("equal" in claude_server.py, "Equal" in server.py) exactly when the two
integer values are equal, and otherwise reports the side with the
strictly greater value as the winner.  Part one characterises
claude_server.py's `compare_stat` for all integers, part two the
`comparisons` dict of its `compare_drivers` over any snapshot, part three
the `analysis` dict of server.py's `compare_drivers` over its hardcoded
table. -/
theorem claim1_tie_iff_equal :
    (∀ a b : Int,
      (ClaudeServer.compare_stat a b = "equal" ↔ a = b) ∧
      (ClaudeServer.compare_stat a b = "driver1" ↔ a > b) ∧
      (ClaudeServer.compare_stat a b = "driver2" ↔ b > a)) ∧
    (∀ (snap : Snapshot) (driver1_id driver2_id : String) (d1 d2 : Driver)
        (res : ClaudeServer.ComparisonResult),
      lookup snap.drivers driver1_id = some d1 →
      lookup snap.drivers driver2_id = some d2 →
      ClaudeServer.compare_drivers snap driver1_id driver2_id = .ok res →
      reportsWinner (lookup res.comparisons "world_championships")
          d1.world_championships d2.world_championships ∧
      reportsWinner (lookup res.comparisons "race_wins") d1.race_wins d2.race_wins ∧
      reportsWinner (lookup res.comparisons "pole_positions")
          d1.pole_positions d2.pole_positions ∧
      reportsWinner (lookup res.comparisons "fastest_laps") d1.fastest_laps d2.fastest_laps) ∧
    (∀ (driver1_id driver2_id : String) (d1 d2 : Driver) (res : Server.Comparison),
      lookup Server.F1_DATA.drivers driver1_id = some d1 →
      lookup Server.F1_DATA.drivers driver2_id = some d2 →
      Server.compare_drivers Server.F1_DATA driver1_id driver2_id = .ok res →
      namedReportsWinner (lookup res.analysis "more_championships") d1.name d2.name
          d1.world_championships d2.world_championships ∧
      namedReportsWinner (lookup res.analysis "more_wins") d1.name d2.name
          d1.race_wins d2.race_wins ∧
      namedReportsWinner (lookup res.analysis "more_poles") d1.name d2.name
          d1.pole_positions d2.pole_positions) := by
  refine ⟨?_, ?_, ?_⟩
  · intro a b
    refine ⟨⟨fun h => ?_, compare_stat_of_eq⟩, ⟨fun h => ?_, compare_stat_of_gt⟩,
      ⟨fun h => ?_, compare_stat_of_lt⟩⟩
    · rcases lt_trichotomy a b with hh | hh | hh
      · rw [compare_stat_of_lt hh] at h; exact absurd h (by decide)
      · exact hh
      · rw [compare_stat_of_gt hh] at h; exact absurd h (by decide)
    · rcases lt_trichotomy a b with hh | hh | hh
      · rw [compare_stat_of_lt hh] at h; exact absurd h (by decide)
      · rw [compare_stat_of_eq hh] at h; exact absurd h (by decide)
      · exact hh
    · rcases lt_trichotomy a b with hh | hh | hh
      · exact hh
      · rw [compare_stat_of_eq hh] at h; exact absurd h (by decide)
      · rw [compare_stat_of_gt hh] at h; exact absurd h (by decide)
  · intro snap driver1_id driver2_id d1 d2 res h1 h2 h3
    simp only [ClaudeServer.compare_drivers, h1, h2] at h3
    injection h3 with h3
    subst h3
    exact ⟨reportsWinner_compare_stat _ _, reportsWinner_compare_stat _ _,
      reportsWinner_compare_stat _ _, reportsWinner_compare_stat _ _⟩
  · intro driver1_id driver2_id d1 d2 res h1 h2 h3
    have hname : ∀ p ∈ Server.F1_DATA.drivers, p.2.name ≠ "Equal" := by decide
    have hn1 := hname _ (lookup_mem _ _ _ h1)
    have hn2 := hname _ (lookup_mem _ _ _ h2)
    simp only [Server.compare_drivers, h1, h2] at h3
    injection h3 with h3
    subst h3
    exact ⟨namedReportsWinner_moreOf _ _ _ _ hn1 hn2,
      namedReportsWinner_moreOf _ _ _ _ hn1 hn2,
      namedReportsWinner_moreOf _ _ _ _ hn1 hn2⟩

/-- Witness for C1 at Max Verstappen (4 championships) vs Lewis Hamilton
(7): both lookups succeed, both comparisons succeed, and the championships
entry reports driver 2 / Lewis Hamilton. -/
theorem claim1_tie_iff_equal_witness :
    lookup Server.F1_DATA.drivers "max_verstappen" =
      some { name := "Max Verstappen", team := "Red Bull Racing", nationality := "Dutch"
             world_championships := 4, race_wins := 63, pole_positions := 40
             fastest_laps := 33, current_points := 0 } ∧
    lookup Server.F1_DATA.drivers "lewis_hamilton" =
      some { name := "Lewis Hamilton", team := "Ferrari", nationality := "British"
             world_championships := 7, race_wins := 105, pole_positions := 104
             fastest_laps := 67, current_points := 0 } ∧
    ClaudeServer.compare_drivers Server.F1_DATA "max_verstappen" "lewis_hamilton" =
      .ok ⟨"Max Verstappen", "Lewis Hamilton",
        [("world_championships", "driver2"), ("race_wins", "driver2"),
         ("pole_positions", "driver2"), ("fastest_laps", "driver2")]⟩ ∧
    Server.compare_drivers Server.F1_DATA "max_verstappen" "lewis_hamilton" =
      .ok ⟨⟨"Max Verstappen", 4, 63, 40⟩, ⟨"Lewis Hamilton", 7, 105, 104⟩,
        [("more_championships", "Lewis Hamilton"), ("more_wins", "Lewis Hamilton"),
         ("more_poles", "Lewis Hamilton")]⟩ ∧
    reportsWinner (some "driver2") 4 7 ∧
    namedReportsWinner (some "Lewis Hamilton") "Max Verstappen" "Lewis Hamilton" 4 7 ∧
    ClaudeServer.compare_stat 7 4 = "driver1" :=
  ⟨rfl, rfl, rfl, rfl,
    (claim1_tie_iff_equal.2.1 Server.F1_DATA "max_verstappen" "lewis_hamilton" _ _ _
      rfl rfl rfl).1,
    (claim1_tie_iff_equal.2.2 "max_verstappen" "lewis_hamilton" _ _ _ rfl rfl rfl).1,
    (claim1_tie_iff_equal.1 7 4).2.1.mpr (by decide)⟩

/-- C2 (amended): on any successful comparison, claude_server.py's
`comparisons` dict has exactly the four tracked statistic keys with a
label verdict each, while server.py's `analysis` dict has exactly three
keys — championships, wins, poles, with no fastest-laps determination —
and in both variants every entry is a per-statistic verdict (a label or a
name or the tie value), never an aggregate score. -/
theorem claim2_four_stats_no_aggregate :
    (∀ (snap : Snapshot) (driver1_id driver2_id : String) (d1 d2 : Driver)
        (res : ClaudeServer.ComparisonResult),
      lookup snap.drivers driver1_id = some d1 →
      lookup snap.drivers driver2_id = some d2 →
      ClaudeServer.compare_drivers snap driver1_id driver2_id = .ok res →
      keys res.comparisons =
        ["world_championships", "race_wins", "pole_positions", "fastest_laps"] ∧
      ∀ p ∈ res.comparisons, p.2 = "driver1" ∨ p.2 = "driver2" ∨ p.2 = "equal") ∧
    (∀ (snap : Snapshot) (driver1_id driver2_id : String) (d1 d2 : Driver)
        (res : Server.Comparison),
      lookup snap.drivers driver1_id = some d1 →
      lookup snap.drivers driver2_id = some d2 →
      Server.compare_drivers snap driver1_id driver2_id = .ok res →
      keys res.analysis = ["more_championships", "more_wins", "more_poles"] ∧
      strContains "fastest" (String.intercalate "," (keys res.analysis)) = false ∧
      ∀ p ∈ res.analysis, p.2 = d1.name ∨ p.2 = d2.name ∨ p.2 = "Equal") := by
  constructor
  · intro snap driver1_id driver2_id d1 d2 res h1 h2 h3
    simp only [ClaudeServer.compare_drivers, h1, h2] at h3
    injection h3 with h3
    subst h3
    refine ⟨rfl, ?_⟩
    intro p hp
    simp only [List.mem_cons, List.not_mem_nil, or_false] at hp
    rcases hp with rfl | rfl | rfl | rfl <;> exact compare_stat_cases _ _
  · intro snap driver1_id driver2_id d1 d2 res h1 h2 h3
    simp only [Server.compare_drivers, h1, h2] at h3
    injection h3 with h3
    subst h3
    refine ⟨rfl, ?_, ?_⟩
    · show strContains "fastest"
        (String.intercalate "," ["more_championships", "more_wins", "more_poles"]) = false
      decide
    · intro p hp
      simp only [List.mem_cons, List.not_mem_nil, or_false] at hp
      rcases hp with rfl | rfl | rfl <;> exact moreOf_cases _ _ _ _


/-- Witness for C2 at the same concrete pair: hypotheses discharged by
evaluation, conclusions instantiated. -/
theorem claim2_four_stats_no_aggregate_witness :
    lookup Server.F1_DATA.drivers "max_verstappen" ≠ none ∧
    lookup Server.F1_DATA.drivers "lewis_hamilton" ≠ none ∧
    keys ([("world_championships", "driver2"), ("race_wins", "driver2"),
      ("pole_positions", "driver2"), ("fastest_laps", "driver2")] : List (String × String)) =
      ["world_championships", "race_wins", "pole_positions", "fastest_laps"] ∧
    keys ([("more_championships", "Lewis Hamilton"), ("more_wins", "Lewis Hamilton"),
      ("more_poles", "Lewis Hamilton")] : List (String × String)) =
      ["more_championships", "more_wins", "more_poles"] := by
  refine ⟨by decide, by decide, ?_, ?_⟩
  · exact (claim2_four_stats_no_aggregate.1 Server.F1_DATA "max_verstappen" "lewis_hamilton"
      _ _ _ rfl rfl rfl).1
  · exact (claim2_four_stats_no_aggregate.2 Server.F1_DATA "max_verstappen" "lewis_hamilton"
      _ _ _ rfl rfl rfl).1

/-- Counterexample to C2 as stated: the successful server.py comparison of
two drivers present in its table carries analysis keys
`more_championships`, `more_wins`, `more_poles` only — three entries, and
none of them (checked on their comma-joined text) mentions the fastest-laps
statistic, so there is no winner determination for each of the four
tracked statistics. -/
theorem claim2_counterexample :
    Server.compare_drivers Server.F1_DATA "max_verstappen" "lewis_hamilton" =
      .ok ⟨⟨"Max Verstappen", 4, 63, 40⟩, ⟨"Lewis Hamilton", 7, 105, 104⟩,
        [("more_championships", "Lewis Hamilton"), ("more_wins", "Lewis Hamilton"),
         ("more_poles", "Lewis Hamilton")]⟩ ∧
    strContains "fastest"
      (String.intercalate "," ["more_championships", "more_wins", "more_poles"]) = false ∧
    ([("more_championships", "Lewis Hamilton"), ("more_wins", "Lewis Hamilton"),
      ("more_poles", "Lewis Hamilton")] : List (String × String)).length = 3 :=
  ⟨rfl, by decide, rfl⟩

/-- C3: swapping the two input ids of claude_server.py's `compare_drivers`
swaps the "driver1"/"driver2" name fields of the result but, once the
labels are resolved against those fields, reports the same named driver
(or the same tie) as the winner of every statistic; and the rendered
winner text of claude_server_generic.py's `compare_stat` is literally
invariant under the swap. -/
theorem claim3_swap_symmetry :
    (∀ (snap : Snapshot) (driver1_id driver2_id : String) (d1 d2 : Driver)
        (res res2 : ClaudeServer.ComparisonResult),
      lookup snap.drivers driver1_id = some d1 →
      lookup snap.drivers driver2_id = some d2 →
      ClaudeServer.compare_drivers snap driver1_id driver2_id = .ok res →
      ClaudeServer.compare_drivers snap driver2_id driver1_id = .ok res2 →
      res2.driver1 = res.driver2 ∧ res2.driver2 = res.driver1 ∧
      ∀ stat : String, statVerdict res2 stat = statVerdict res stat) ∧
    (∀ (stat1 stat2 : Int) (name1 name2 : String),
      ClaudeServerGeneric.compare_stat stat1 stat2 name1 name2 =
        ClaudeServerGeneric.compare_stat stat2 stat1 name2 name1) := by
  constructor
  · intro snap driver1_id driver2_id d1 d2 res res2 h1 h2 h3 h4
    simp only [ClaudeServer.compare_drivers, h1, h2] at h3 h4
    injection h3 with h3
    injection h4 with h4
    subst h3
    subst h4
    refine ⟨rfl, rfl, ?_⟩
    intro stat
    simp only [statVerdict, lookup]
    split_ifs <;>
      simp only [Option.map_some', Option.map_none'] <;>
      first
        | rfl
        | exact congrArg some (labelVerdict_compare_stat_swap _ _ _ _)
  · intro stat1 stat2 name1 name2
    rcases lt_trichotomy stat1 stat2 with h | h | h
    · rw [generic_compare_stat_of_lt name1 name2 h, generic_compare_stat_of_gt name2 name1 h]
    · rw [generic_compare_stat_of_eq name1 name2 h, generic_compare_stat_of_eq name2 name1 h.symm, h]
    · rw [generic_compare_stat_of_gt name1 name2 h, generic_compare_stat_of_lt name2 name1 h]

/-- Witness for C3: the two swapped comparisons of the concrete pair, the
verdict agreement on the championships statistic, and the generic
variant's swap invariance at 4 vs 7. -/
theorem claim3_swap_symmetry_witness :
    ClaudeServer.compare_drivers Server.F1_DATA "max_verstappen" "lewis_hamilton" =
      .ok ⟨"Max Verstappen", "Lewis Hamilton",
        [("world_championships", "driver2"), ("race_wins", "driver2"),
         ("pole_positions", "driver2"), ("fastest_laps", "driver2")]⟩ ∧
    ClaudeServer.compare_drivers Server.F1_DATA "lewis_hamilton" "max_verstappen" =
      .ok ⟨"Lewis Hamilton", "Max Verstappen",
        [("world_championships", "driver1"), ("race_wins", "driver1"),
         ("pole_positions", "driver1"), ("fastest_laps", "driver1")]⟩ ∧
    statVerdict
        ⟨"Lewis Hamilton", "Max Verstappen",
          [("world_championships", "driver1"), ("race_wins", "driver1"),
           ("pole_positions", "driver1"), ("fastest_laps", "driver1")]⟩
        "world_championships" =
      statVerdict
        ⟨"Max Verstappen", "Lewis Hamilton",
          [("world_championships", "driver2"), ("race_wins", "driver2"),
           ("pole_positions", "driver2"), ("fastest_laps", "driver2")]⟩
        "world_championships" ∧
    ClaudeServerGeneric.compare_stat 4 7 "Max Verstappen" "Lewis Hamilton" =
      ClaudeServerGeneric.compare_stat 7 4 "Lewis Hamilton" "Max Verstappen" := by
  refine ⟨rfl, rfl, ?_, claim3_swap_symmetry.2 4 7 "Max Verstappen" "Lewis Hamilton"⟩
  exact (claim3_swap_symmetry.1 Server.F1_DATA "max_verstappen" "lewis_hamilton"
    _ _ _ _ rfl rfl rfl rfl).2.2 "world_championships"

/-- C4: for every identifier absent from its table, each `get_*` lookup
returns a failure whose valid-identifier list is exactly the table's
current key list — as the `available` list in claude_server.py, and
joined into the error text after "Available …: " in server.py. -/
theorem claim4_notfound_lists_keys :
    (∀ (snap : Snapshot) (driver_id : String),
      lookup snap.drivers driver_id = none →
      ClaudeServer.get_driver_info snap driver_id =
        .notFound ("Driver '" ++ driver_id ++ "' not found.") (keys snap.drivers)) ∧
    (∀ (snap : Snapshot) (team_id : String),
      lookup snap.teams team_id = none →
      ClaudeServer.get_team_info snap team_id =
        .notFound ("Team '" ++ team_id ++ "' not found.") (keys snap.teams)) ∧
    (∀ (snap : Snapshot) (circuit_id : String),
      lookup snap.circuits circuit_id = none →
      ClaudeServer.get_circuit_info snap circuit_id =
        .notFound ("Circuit '" ++ circuit_id ++ "' not found.") (keys snap.circuits)) ∧
    (∀ (snap : Snapshot) (driver_id : String),
      lookup snap.drivers driver_id = none →
      Server.get_driver_info snap driver_id =
        .error ("Driver '" ++ driver_id ++ "' not found. Available drivers: " ++
          String.intercalate ", " (keys snap.drivers))) ∧
    (∀ (snap : Snapshot) (team_id : String),
      lookup snap.teams team_id = none →
      Server.get_team_info snap team_id =
        .error ("Team '" ++ team_id ++ "' not found. Available teams: " ++
          String.intercalate ", " (keys snap.teams))) ∧
    (∀ (snap : Snapshot) (circuit_id : String),
      lookup snap.circuits circuit_id = none →
      Server.get_circuit_info snap circuit_id =
        .error ("Circuit '" ++ circuit_id ++ "' not found. Available circuits: " ++
          String.intercalate ", " (keys snap.circuits))) := by
  refine ⟨?_, ?_, ?_, ?_, ?_, ?_⟩ <;> intro snap i h
  · simp [ClaudeServer.get_driver_info, h]
  · simp [ClaudeServer.get_team_info, h]
  · simp [ClaudeServer.get_circuit_info, h]
  · simp [Server.get_driver_info, h]
  · simp [Server.get_team_info, h]
  · simp [Server.get_circuit_info, h]

/-- Witness for C4 at the absent id "unknown_id": each lookup misses, and
each failure lists exactly the stored keys in stored order. -/
theorem claim4_notfound_lists_keys_witness :
    lookup Server.F1_DATA.drivers "unknown_id" = none ∧
    lookup Server.F1_DATA.teams "unknown_id" = none ∧
    lookup Server.F1_DATA.circuits "unknown_id" = none ∧
    ClaudeServer.get_driver_info Server.F1_DATA "unknown_id" =
      .notFound "Driver 'unknown_id' not found."
        ["max_verstappen", "lewis_hamilton", "charles_leclerc"] ∧
    ClaudeServer.get_team_info Server.F1_DATA "unknown_id" =
      .notFound "Team 'unknown_id' not found." ["red_bull", "ferrari", "mercedes"] ∧
    ClaudeServer.get_circuit_info Server.F1_DATA "unknown_id" =
      .notFound "Circuit 'unknown_id' not found." ["monaco", "silverstone"] ∧
    Server.get_driver_info Server.F1_DATA "unknown_id" =
      .error "Driver 'unknown_id' not found. Available drivers: max_verstappen, lewis_hamilton, charles_leclerc" ∧
    Server.get_team_info Server.F1_DATA "unknown_id" =
      .error "Team 'unknown_id' not found. Available teams: red_bull, ferrari, mercedes" ∧
    Server.get_circuit_info Server.F1_DATA "unknown_id" =
      .error "Circuit 'unknown_id' not found. Available circuits: monaco, silverstone" :=
  ⟨rfl, rfl, rfl,
   claim4_notfound_lists_keys.1 Server.F1_DATA "unknown_id" rfl,
   claim4_notfound_lists_keys.2.1 Server.F1_DATA "unknown_id" rfl,
   claim4_notfound_lists_keys.2.2.1 Server.F1_DATA "unknown_id" rfl,
   claim4_notfound_lists_keys.2.2.2.1 Server.F1_DATA "unknown_id" rfl,
   claim4_notfound_lists_keys.2.2.2.2.1 Server.F1_DATA "unknown_id" rfl,
   claim4_notfound_lists_keys.2.2.2.2.2 Server.F1_DATA "unknown_id" rfl⟩

/-- C5 (amended): with a missing driver id, server.py's `compare_drivers`
fails naming the first missing id in its message, while claude_server.py's
returns the fixed text "One or both driver IDs not found." that names no
id. -/
theorem claim5_missing_id_naming :
    (∀ (snap : Snapshot) (driver1_id driver2_id : String),
      lookup snap.drivers driver1_id = none →
      Server.compare_drivers snap driver1_id driver2_id =
        .error ("Driver '" ++ driver1_id ++ "' not found")) ∧
    (∀ (snap : Snapshot) (driver1_id driver2_id : String) (d1 : Driver),
      lookup snap.drivers driver1_id = some d1 →
      lookup snap.drivers driver2_id = none →
      Server.compare_drivers snap driver1_id driver2_id =
        .error ("Driver '" ++ driver2_id ++ "' not found")) ∧
    (∀ (snap : Snapshot) (driver1_id driver2_id : String),
      lookup snap.drivers driver1_id = none ∨ lookup snap.drivers driver2_id = none →
      ClaudeServer.compare_drivers snap driver1_id driver2_id =
        .error "One or both driver IDs not found.") := by
  refine ⟨?_, ?_, ?_⟩
  · intro snap driver1_id driver2_id h
    simp [Server.compare_drivers, h]
  · intro snap driver1_id driver2_id d1 h1 h2
    simp [Server.compare_drivers, h1, h2]
  · intro snap driver1_id driver2_id h
    rcases h with h | h
    · cases h2 : lookup snap.drivers driver2_id <;>
        simp [ClaudeServer.compare_drivers, h, h2]
    · cases h1 : lookup snap.drivers driver1_id <;>
        simp [ClaudeServer.compare_drivers, h1, h]

/-- Witness for C5 at the absent id "ghost": server.py names it in either
position; claude_server.py returns its fixed message. -/
theorem claim5_missing_id_naming_witness :
    lookup Server.F1_DATA.drivers "ghost" = none ∧
    Server.compare_drivers Server.F1_DATA "ghost" "max_verstappen" =
      .error "Driver 'ghost' not found" ∧
    Server.compare_drivers Server.F1_DATA "max_verstappen" "ghost" =
      .error "Driver 'ghost' not found" ∧
    ClaudeServer.compare_drivers Server.F1_DATA "max_verstappen" "ghost" =
      .error "One or both driver IDs not found." ∧
    strContains "ghost" "Driver 'ghost' not found" = true :=
  ⟨rfl,
   claim5_missing_id_naming.1 Server.F1_DATA "ghost" "max_verstappen" rfl,
   claim5_missing_id_naming.2.1 Server.F1_DATA "max_verstappen" "ghost" _ rfl rfl,
   claim5_missing_id_naming.2.2 Server.F1_DATA "max_verstappen" "ghost" (Or.inr rfl),
   by decide⟩

/-- Counterexample to C5 as stated: claude_server.py's `compare_drivers`,
called with the missing id "ghost", returns a failure whose message does
not contain "ghost" — the result does not name the missing id. -/
theorem claim5_counterexample :
    ClaudeServer.compare_drivers Server.F1_DATA "max_verstappen" "ghost" =
      .error "One or both driver IDs not found." ∧
    strContains "ghost" "One or both driver IDs not found." = false :=
  ⟨rfl, by decide⟩

/-- C6: for every identifier present in its table, the `get_*` operations
return exactly the stored record, every field unmodified. -/
theorem claim6_present_returns_stored :
    (∀ (snap : Snapshot) (driver_id : String) (d : Driver),
      lookup snap.drivers driver_id = some d →
      ClaudeServer.get_driver_info snap driver_id = .ok d) ∧
    (∀ (snap : Snapshot) (team_id : String) (t : Team),
      lookup snap.teams team_id = some t →
      ClaudeServer.get_team_info snap team_id = .ok t) ∧
    (∀ (snap : Snapshot) (circuit_id : String) (c : Circuit),
      lookup snap.circuits circuit_id = some c →
      ClaudeServer.get_circuit_info snap circuit_id = .ok c) ∧
    (∀ (snap : Snapshot) (driver_id : String) (d : Driver),
      lookup snap.drivers driver_id = some d →
      Server.get_driver_info snap driver_id = .ok d) ∧
    (∀ (snap : Snapshot) (driver_id : String) (d : Driver),
      lookup snap.drivers driver_id = some d →
      ClaudeServerResources.get_driver_info snap driver_id = .record d) := by
  refine ⟨?_, ?_, ?_, ?_, ?_⟩ <;> intro snap i r h
  · simp [ClaudeServer.get_driver_info, h]
  · simp [ClaudeServer.get_team_info, h]
  · simp [ClaudeServer.get_circuit_info, h]
  · simp [Server.get_driver_info, h]
  · simp [ClaudeServerResources.get_driver_info, ClaudeServerResources.get_driver_resource, h]

/-- Witness for C6 at "max_verstappen" and "ferrari": the stored records
come back exactly. -/
theorem claim6_present_returns_stored_witness :
    lookup Server.F1_DATA.drivers "max_verstappen" =
      some { name := "Max Verstappen", team := "Red Bull Racing", nationality := "Dutch"
             world_championships := 4, race_wins := 63, pole_positions := 40
             fastest_laps := 33, current_points := 0 } ∧
    lookup Server.F1_DATA.teams "ferrari" =
      some { name := "Scuderia Ferrari", base := "Maranello, Italy"
             team_principal := "Fred Vasseur", constructors_championships := 16
             engine_supplier := "Ferrari", founded := 1950 } ∧
    ClaudeServer.get_driver_info Server.F1_DATA "max_verstappen" =
      .ok { name := "Max Verstappen", team := "Red Bull Racing", nationality := "Dutch"
            world_championships := 4, race_wins := 63, pole_positions := 40
            fastest_laps := 33, current_points := 0 } ∧
    ClaudeServer.get_team_info Server.F1_DATA "ferrari" =
      .ok { name := "Scuderia Ferrari", base := "Maranello, Italy"
            team_principal := "Fred Vasseur", constructors_championships := 16
            engine_supplier := "Ferrari", founded := 1950 } ∧
    ClaudeServer.get_circuit_info Server.F1_DATA "monaco" =
      .ok { name := "Circuit de Monaco", location := "Monte Carlo, Monaco"
            length_km := "3.337", laps := 78, lap_record := "1:12.909"
            lap_record_holder := "Lewis Hamilton", first_gp := 1950 } ∧
    Server.get_driver_info Server.F1_DATA "max_verstappen" =
      .ok { name := "Max Verstappen", team := "Red Bull Racing", nationality := "Dutch"
            world_championships := 4, race_wins := 63, pole_positions := 40
            fastest_laps := 33, current_points := 0 } ∧
    ClaudeServerResources.get_driver_info Server.F1_DATA "max_verstappen" =
      .record { name := "Max Verstappen", team := "Red Bull Racing", nationality := "Dutch"
                world_championships := 4, race_wins := 63, pole_positions := 40
                fastest_laps := 33, current_points := 0 } :=
  ⟨rfl, rfl,
   claim6_present_returns_stored.1 Server.F1_DATA "max_verstappen" _ rfl,
   claim6_present_returns_stored.2.1 Server.F1_DATA "ferrari" _ rfl,
   claim6_present_returns_stored.2.2.1 Server.F1_DATA "monaco" _ rfl,
   claim6_present_returns_stored.2.2.2.1 Server.F1_DATA "max_verstappen" _ rfl,
   claim6_present_returns_stored.2.2.2.2 Server.F1_DATA "max_verstappen" _ rfl⟩

/-- C7: when the data file is absent or its text fails to parse, the
loaders return the empty three-table snapshot together with a non-empty
list of reported messages, and — being total functions — do not fail. -/
theorem claim7_load_failure_empty :
    ∀ (parse : String → Option Snapshot) (file : ClaudeServer.ReadResult),
      (file = .fileNotFound ∨ ∃ t, file = .content t ∧ parse t = none) →
      (ClaudeServer.load_f1_data parse file).1 = emptySnapshot ∧
      (ClaudeServer.load_f1_data parse file).2 ≠ [] ∧
      (ClaudeServerGeneric.load_f1_data parse file).1 = emptySnapshot ∧
      (ClaudeServerGeneric.load_f1_data parse file).2 ≠ [] := by
  intro parse file h
  rcases h with rfl | ⟨t, rfl, hp⟩
  · refine ⟨rfl, ?_, rfl, ?_⟩
    · simp [ClaudeServer.load_f1_data]
    · simp [ClaudeServerGeneric.load_f1_data]
  · refine ⟨?_, ?_, ?_, ?_⟩ <;>
      simp [ClaudeServer.load_f1_data, ClaudeServerGeneric.load_f1_data, hp]

/-- Witness for C7: a parser that always fails, applied to present and
missing files. -/
theorem claim7_load_failure_empty_witness :
    noParse "oops" = none ∧
    (ClaudeServer.load_f1_data noParse (.content "oops")).1 = emptySnapshot ∧
    (ClaudeServer.load_f1_data noParse .fileNotFound).2 ≠ [] ∧
    (ClaudeServerGeneric.load_f1_data noParse (.content "oops")).1 = emptySnapshot :=
  ⟨rfl,
   (claim7_load_failure_empty noParse (.content "oops") (Or.inr ⟨"oops", rfl, rfl⟩)).1,
   (claim7_load_failure_empty noParse .fileNotFound (Or.inl rfl)).2.1,
   (claim7_load_failure_empty noParse (.content "oops") (Or.inr ⟨"oops", rfl, rfl⟩)).2.2.1⟩

/-- C8: claude_server.py's `reload_data` without the confirmation flag
keeps the active snapshot exactly as it is (whatever a fresh load would
have produced) and returns the skip explanation. -/
theorem claim8_no_confirm_noop :
    ∀ (current loaded : Snapshot),
      ClaudeServer.reload_data false current loaded =
        (current, "Reload aborted: please set 'confirm=true' to reload.") := by
  intro current loaded
  rfl

/-- C9: server.py's `handle_call_tool` is a total function of the request:
it always returns exactly one content item, an `.ok` dispatch is rendered
as the tool result, and any raised fault is caught at this boundary and
rendered as the structured error shape — never propagated. -/
theorem claim9_dispatch_boundary :
    (∀ (snap : Snapshot) (req : Server.CallToolRequest),
      (Server.handle_call_tool snap req).length = 1) ∧
    (∀ (snap : Snapshot) (req : Server.CallToolRequest) (e : Server.PyError),
      Server.dispatch snap req = .error e →
      Server.handle_call_tool snap req = [.caughtError (Server.str_of_error e)]) ∧
    (∀ (snap : Snapshot) (req : Server.CallToolRequest) (o : Server.ToolOutput),
      Server.dispatch snap req = .ok o →
      Server.handle_call_tool snap req = [.output o]) := by
  refine ⟨?_, ?_, ?_⟩
  · intro snap req
    cases hd : Server.dispatch snap req <;> simp [Server.handle_call_tool, hd]
  · intro snap req e h
    simp [Server.handle_call_tool, h]
  · intro snap req o h
    simp [Server.handle_call_tool, h]

/-- Witness for C9: calling `get_driver_info` with no arguments raises
`KeyError('driver_id')` inside the dispatch, and the boundary converts it
into the single structured error content. -/
theorem claim9_dispatch_boundary_witness :
    Server.dispatch Server.F1_DATA ⟨"get_driver_info", []⟩ =
      .error (.keyError "driver_id") ∧
    Server.handle_call_tool Server.F1_DATA ⟨"get_driver_info", []⟩ =
      [.caughtError "'driver_id'"] ∧
    (Server.handle_call_tool Server.F1_DATA ⟨"get_driver_info", []⟩).length = 1 :=
  ⟨rfl,
   claim9_dispatch_boundary.2.1 Server.F1_DATA ⟨"get_driver_info", []⟩ _ rfl,
   claim9_dispatch_boundary.1 Server.F1_DATA ⟨"get_driver_info", []⟩⟩

/-- C10 (amended): with confirmation (claude_server.py) or unconditionally
(claude_server_generic.py), `reload_data` returns its variant's success
status text even when the data file is missing or malformed — in which
case the active snapshot is silently replaced by the empty three-table
snapshot. -/
theorem claim10_reload_always_success :
    ∀ (current : Snapshot) (parse : String → Option Snapshot)
      (file : ClaudeServer.ReadResult),
      (file = .fileNotFound ∨ ∃ t, file = .content t ∧ parse t = none) →
      ClaudeServer.reload_data true current (ClaudeServer.load_f1_data parse file).1 =
        (emptySnapshot, "F1 data reloaded successfully.") ∧
      ClaudeServerGeneric.reload_data (ClaudeServerGeneric.load_f1_data parse file).1 =
        (emptySnapshot, "F1 data reloaded successfully from f1_data.json") := by
  intro current parse file h
  rcases h with rfl | ⟨t, rfl, hp⟩
  · exact ⟨rfl, rfl⟩
  · constructor <;>
      simp [ClaudeServer.load_f1_data, ClaudeServerGeneric.load_f1_data,
        ClaudeServer.reload_data, ClaudeServerGeneric.reload_data, hp]

/-- Witness for C10: reloading over a missing file yields the success text
and the empty snapshot in both variants. -/
theorem claim10_reload_always_success_witness :
    ClaudeServer.reload_data true Server.F1_DATA
        (ClaudeServer.load_f1_data noParse .fileNotFound).1 =
      (emptySnapshot, "F1 data reloaded successfully.") ∧
    ClaudeServerGeneric.reload_data (ClaudeServerGeneric.load_f1_data noParse .fileNotFound).1 =
      (emptySnapshot, "F1 data reloaded successfully from f1_data.json") :=
  claim10_reload_always_success Server.F1_DATA noParse .fileNotFound (Or.inl rfl)

/-- Counterexample to C10 as stated: the unconditional reload of
claude_server_generic.py returns the status text "F1 data reloaded
successfully from f1_data.json", which is not the quoted text
"F1 data reloaded successfully.". -/
theorem claim10_counterexample :
    (ClaudeServerGeneric.reload_data emptySnapshot).2 =
      "F1 data reloaded successfully from f1_data.json" ∧
    (ClaudeServerGeneric.reload_data emptySnapshot).2 ≠
      "F1 data reloaded successfully." :=
  ⟨rfl, by decide⟩

end F1Spec
